import Mathlib

/-!
Verification of the poll/diff/persist/notify core of a SoundCloud playlist
monitoring bot (`soundcloud_telegram_bot.py`).

The embedding has three layers, all translated from the source:

* Store layer: `load_previous_state` / `save_state` over a small JSON model,
  mirroring the Python file handling (absent file, `OSError`,
  `json.JSONDecodeError`, and the uncaught `AttributeError` that `data.get`
  raises when the parsed document is not an object).
* Cycle layer: `check_playlist_once` as a pure function from the loaded
  previous track list and the fetched current track list to the returned
  `(new_tracks, current_tracks)` pair together with the save it performs.
* Handler layer: `check` (the `/check` Telegram command handler) as a function
  producing the ordered list of externally visible events — replies sent and
  state-file writes — given the fetch outcome and a model of which
  `reply_text` calls succeed.
-/

namespace SoundcloudBot

/-- JSON values, modelling the documents `json.load` / `json.dump`
exchange with the state file. -/
inductive JsonVal where
  | null : JsonVal
  | bool (b : Bool) : JsonVal
  | num (n : Int) : JsonVal
  | str (s : String) : JsonVal
  | arr (items : List JsonVal) : JsonVal
  | obj (fields : List (String × JsonVal)) : JsonVal

/-- Whether a JSON value is an object (a Python `dict`, the only values
on which `.get` is defined). -/
def JsonVal.isObj : JsonVal → Bool
  | .obj _ => true
  | _ => false

/-- The observable condition of `STATE_FILE` when `load_previous_state`
runs: missing, unreadable (`OSError` when opening or reading), readable
but not valid JSON (`json.JSONDecodeError`), or readable with content
parsing to a JSON value. -/
inductive StateFile where
  | absent : StateFile
  | unreadable : StateFile
  | malformed : StateFile
  | content (j : JsonVal) : StateFile

/-- Python exceptions that escape `load_previous_state`; `data.get` on a
non-dict raises `AttributeError`, which the surrounding
`except (json.JSONDecodeError, OSError)` does not catch. -/
inductive PyError where
  | attributeError : PyError
deriving Repr, DecidableEq

/-- Python `dict.get(key, default)` on the association list of an object. -/
def dictGet (fields : List (String × JsonVal)) (key : String)
    (default : JsonVal) : JsonVal :=
  match fields.find? (fun kv => kv.1 == key) with
  | some kv => kv.2
  | none => default

/-- Embedding of `load_previous_state`: returns `[]` if the file does not
exist; returns `data.get("tracks", [])` if the content parses to an object;
returns `[]` on `json.JSONDecodeError` or `OSError`; raises
`AttributeError` if the content parses to a non-object JSON value. -/
def load_previous_state : StateFile → Except PyError JsonVal
  | .absent => .ok (.arr [])
  | .unreadable => .ok (.arr [])
  | .malformed => .ok (.arr [])
  | .content j =>
    match j with
    | .obj fields => .ok (dictGet fields "tracks" (.arr []))
    | _ => .error .attributeError

/-- JSON encoding of a track list, as `json.dump` serialises the Python
list of title strings. -/
def encodeTracks (tracks : List String) : JsonVal :=
  .arr (tracks.map .str)

/-- Embedding of `save_state`: the JSON document `{"tracks": tracks}`
written wholesale to the state file. -/
def save_state (tracks : List String) : JsonVal :=
  .obj [("tracks", encodeTracks tracks)]

/-- Result of one run of `check_playlist_once`: the returned
`(new_tracks, current_tracks)` pair and the track list passed to
`save_state` during the run, if any. -/
structure CycleResult where
  new_tracks : List String
  current_tracks : List String
  saved : Option (List String)
deriving Repr, DecidableEq

/-- The list comprehension `[t for t in current_tracks if t not in
previous_tracks]` from `check_playlist_once`. -/
def diffNew (previous current : List String) : List String :=
  current.filter (fun t => !(previous.contains t))

/-- The Diff Engine contract as the spec words it: the sub-sequence of
`current`, in the order of `current`, whose elements do not occur in
`previous`, by exact string match against the whole `previous` sequence. -/
def diffSpec (previous current : List String) : List String :=
  current.filter (fun t => decide (t ∉ previous))

/-- Embedding of `check_playlist_once` given the loaded previous track
list and the successfully fetched current track list: on empty previous
state it saves `current_tracks` and returns no new tracks (first-run
bootstrap); otherwise it computes the new tracks and saves
`current_tracks` exactly when that list is non-empty. -/
def check_playlist_once (previous current : List String) : CycleResult :=
  if previous.isEmpty then
    { new_tracks := [], current_tracks := current, saved := some current }
  else
    let new_tracks := diffNew previous current
    { new_tracks := new_tracks, current_tracks := current,
      saved := if new_tracks.isEmpty then none else some current }

/-- Failure of `fetch_playlist_tracks` (any `requests` or parsing
exception escaping it). -/
inductive FetchError where
  | fetchError : FetchError
deriving Repr, DecidableEq

/-- Externally visible events of one `/check` handler run, in program
order: each `reply_text` call and each state-file write. -/
inductive Event where
  | sentChecking : Event
  | savedFile (tracks : List String) : Event
  | sentErrorReport : Event
  | sentNoTracksFound : Event
  | sentNewTrack (t : String) : Event
  | sentNoNew : Event
deriving Repr, DecidableEq

/-- The per-track notification loop of the handler. `deliver t` tells
whether `reply_text` for track `t` succeeds; a raised exception
propagates, so the loop stops at the first failing send. Returns the
tracks whose send was attempted, in order, and whether all succeeded. -/
def notifyLoop (deliver : String → Bool) : List String → List String × Bool
  | [] => ([], true)
  | t :: rest =>
    if deliver t then
      let r := notifyLoop deliver rest
      (t :: r.1, r.2)
    else
      ([t], false)

/-- Outcome of one `/check` handler run: the ordered event trace and the
track list held by the state file afterwards. -/
structure HandlerRun where
  events : List Event
  state : List String
deriving Repr, DecidableEq

/-- Embedding of the `/check` handler `check`: replies "checking", runs
`check_playlist_once` (whose save, if any, happens here, before any
notification), replies an error report if the fetch raised, replies
"no tracks found" if the current list is empty, otherwise sends one
message per new track (aborting on the first delivery failure) or a
"no new tracks" reply. `previous` is the track list loaded from the
state file; `deliver` models which per-track `reply_text` calls
succeed. -/
def check (previous : List String) (fetch : Except FetchError (List String))
    (deliver : String → Bool) : HandlerRun :=
  match fetch with
  | .error _ =>
    { events := [.sentChecking, .sentErrorReport], state := previous }
  | .ok current =>
    let r := check_playlist_once previous current
    let saveEvents : List Event :=
      match r.saved with
      | some ts => [.savedFile ts]
      | none => []
    let newState := r.saved.getD previous
    if current.isEmpty then
      { events := .sentChecking :: saveEvents ++ [.sentNoTracksFound],
        state := newState }
    else if !r.new_tracks.isEmpty then
      { events := .sentChecking :: saveEvents ++
          ((notifyLoop deliver r.new_tracks).1.map .sentNewTrack),
        state := newState }
    else
      { events := .sentChecking :: saveEvents ++ [.sentNoNew],
        state := newState }

/-- Whether an event is a per-track notification send. -/
def isNewTrackSend : Event → Bool
  | .sentNewTrack _ => true
  | _ => false

/-- Whether an event is a state-file write. -/
def isFileWrite : Event → Bool
  | .savedFile _ => true
  | _ => false

/-- Number of per-track notification sends attempted in an event trace. -/
def newTrackSends (events : List Event) : Nat :=
  (events.filter isNewTrackSend).length

/-- Number of state-file writes performed in an event trace. -/
def fileWrites (events : List Event) : Nat :=
  (events.filter isFileWrite).length

/-- State-file track list after one check cycle with the given fetch
outcome: a raised fetch leaves the state untouched; otherwise the cycle
saves what `check_playlist_once` saves, if anything. -/
def applyCycle (state : List String)
    (fetch : Except FetchError (List String)) : List String :=
  match fetch with
  | .error _ => state
  | .ok current => (check_playlist_once state current).saved.getD state

/-- State-file track list after a sequence of check cycles with the given
fetch outcomes, starting from `init`. -/
def runCycles (init : List String)
    (fetches : List (Except FetchError (List String))) : List String :=
  fetches.foldl applyCycle init

/-- One check cycle acting on the pair of the state-file track list and
the most recent track list passed to `save_state` so far, if any. -/
def logStep (acc : List String × Option (List String))
    (f : Except FetchError (List String)) :
    List String × Option (List String) :=
  match f with
  | .error _ => acc
  | .ok current =>
    match (check_playlist_once acc.1 current).saved with
    | some ts => (ts, some ts)
    | none => acc

/-- Like `runCycles`, but also tracking the most recent track list passed
to `save_state` across the whole run, if any save happened. -/
def runCyclesLog (init : List String)
    (fetches : List (Except FetchError (List String))) :
    List String × Option (List String) :=
  fetches.foldl logStep (init, none)

/-- State-file track list right before cycle `i` of a run. -/
def stateBefore (init : List String)
    (fetches : List (Except FetchError (List String))) (i : Nat) :
    List String :=
  runCycles init (fetches.take i)

/-- The new-track list computed by cycle `i` of a run (empty when the
fetch of cycle `i` raised or `i` is out of range). -/
def deltaAt (init : List String)
    (fetches : List (Except FetchError (List String))) (i : Nat) :
    List String :=
  match fetches.get? i with
  | some (.ok current) => (check_playlist_once (stateBefore init fetches i) current).new_tracks
  | _ => []

/-- The track list fetched by cycle `i`, when that fetch succeeded. -/
def fetchedAt (fetches : List (Except FetchError (List String))) (i : Nat) :
    Option (List String) :=
  match fetches.get? i with
  | some (.ok current) => some current
  | _ => none

/-- Index of the first cycle whose fetch succeeded. -/
def firstSuccessIdx (fetches : List (Except FetchError (List String))) :
    Option Nat :=
  fetches.findIdx? (fun f => match f with | .ok _ => true | .error _ => false)

/-- Cycle `i` qualifies for the spec's Snapshot invariant: it is the cycle
of the first successful fetch, or its Delta is non-empty. -/
def qualifiesC3 (init : List String)
    (fetches : List (Except FetchError (List String))) (i : Nat) : Prop :=
  firstSuccessIdx fetches = some i ∨ deltaAt init fetches i ≠ []

instance (init : List String) (fetches : List (Except FetchError (List String)))
    (i : Nat) : Decidable (qualifiesC3 init fetches i) := by
  unfold qualifiesC3; infer_instance

/-- The spec's Snapshot invariant, as claimed, for one run: once the
persisted snapshot is non-empty it equals the full fetched list of the
most recent cycle that was the first successful fetch or found a
non-empty Delta. -/
def c3ClaimHolds (init : List String)
    (fetches : List (Except FetchError (List String))) : Prop :=
  runCycles init fetches ≠ [] →
  ∃ i : Fin fetches.length,
    qualifiesC3 init fetches i.1 ∧
    fetchedAt fetches i.1 = some (runCycles init fetches) ∧
    ∀ j : Fin fetches.length, i.1 < j.1 → ¬ qualifiesC3 init fetches j.1

/-! Helper lemmas about the embedded operations. -/

theorem diffNew_eq_diffSpec (prev cur : List String) :
    diffNew prev cur = diffSpec prev cur := by
  unfold diffNew diffSpec
  simp [List.elem_iff]

theorem diffNew_self (l : List String) : diffNew l l = [] := by
  simp [diffNew, List.filter_eq_nil_iff]

theorem diffNew_nil (prev : List String) : diffNew prev [] = [] := rfl

theorem check_playlist_once_nil (cur : List String) :
    check_playlist_once [] cur =
      { new_tracks := [], current_tracks := cur, saved := some cur } := rfl

theorem check_playlist_once_of_ne (prev cur : List String) (h : prev ≠ []) :
    check_playlist_once prev cur =
      { new_tracks := diffNew prev cur, current_tracks := cur,
        saved := if (diffNew prev cur).isEmpty then none else some cur } := by
  simp [check_playlist_once, List.isEmpty_iff, h]

theorem notifyLoop_fst (deliver : String → Bool) (l : List String) :
    (notifyLoop deliver l).1 =
      l.takeWhile deliver ++ (l.dropWhile deliver).take 1 := by
  induction l with
  | nil => rfl
  | cons t rest ih =>
    by_cases h : deliver t <;>
      simp [notifyLoop, List.takeWhile_cons, List.dropWhile_cons, h, ih]

theorem notifyLoop_all_delivered (l : List String) :
    (notifyLoop (fun _ => true) l).1 = l := by
  rw [notifyLoop_fst]
  rw [List.takeWhile_eq_self_iff.mpr (by intro x hx; rfl)]
  rw [List.dropWhile_eq_nil_iff.mpr (by intro x hx; rfl)]
  simp

theorem check_ok_state (prev cur : List String) (d : String → Bool) :
    (check prev (.ok cur) d).state =
      (check_playlist_once prev cur).saved.getD prev := by
  simp only [check]
  split
  · rfl
  · split <;> rfl

theorem check_ok_of_new (prev cur : List String) (d : String → Bool)
    (h : (check_playlist_once prev cur).new_tracks ≠ []) :
    check prev (.ok cur) d =
      { events := .sentChecking :: .savedFile cur ::
          ((notifyLoop d (check_playlist_once prev cur).new_tracks).1.map .sentNewTrack),
        state := cur } := by
  have hprev : prev ≠ [] := by
    intro hp
    rw [hp, check_playlist_once_nil] at h
    exact h rfl
  have hcur : cur ≠ [] := by
    intro hc
    rw [check_playlist_once_of_ne prev cur hprev, hc] at h
    exact h rfl
  have hd : ¬ (diffNew prev cur).isEmpty = true := by
    rw [check_playlist_once_of_ne prev cur hprev] at h
    simpa [List.isEmpty_iff] using h
  simp [check, check_playlist_once_of_ne prev cur hprev, hd,
        List.isEmpty_iff, hcur]

theorem newTrackSends_of_no_new (prev cur : List String) (d : String → Bool)
    (h : (check_playlist_once prev cur).new_tracks = []) :
    newTrackSends (check prev (.ok cur) d).events = 0 := by
  simp only [check]
  split
  · cases hs : (check_playlist_once prev cur).saved <;>
      simp [newTrackSends, hs, isNewTrackSend]
  · split
    · simp_all
    · cases hs : (check_playlist_once prev cur).saved <;>
        simp [newTrackSends, hs, isNewTrackSend]

theorem fileWrites_of_saved_none (prev cur : List String) (d : String → Bool)
    (h : (check_playlist_once prev cur).saved = none) :
    fileWrites (check prev (.ok cur) d).events = 0 := by
  simp only [check]
  split
  · simp [fileWrites, h, isFileWrite]
  · split
    · simp [fileWrites, h, isFileWrite]
    · simp [fileWrites, h, isFileWrite]



instance (init : List String) (fetches : List (Except FetchError (List String))) :
    Decidable (c3ClaimHolds init fetches) := by
  unfold c3ClaimHolds; infer_instance

theorem applyCycle_ok (state cur : List String) :
    applyCycle state (.ok cur) = (check_playlist_once state cur).saved.getD state := rfl

theorem second_cycle_no_new (init L : List String) :
    (check_playlist_once (applyCycle init (.ok L)) L).new_tracks = [] := by
  by_cases hinit : init = []
  · subst hinit
    rw [applyCycle_ok, check_playlist_once_nil]
    by_cases hL : L = []
    · subst hL; rfl
    · show (check_playlist_once L L).new_tracks = []
      rw [check_playlist_once_of_ne L L hL]
      simp [diffNew_self]
  · rw [applyCycle_ok, check_playlist_once_of_ne init L hinit]
    by_cases hd : (diffNew init L).isEmpty = true
    · simp only [hd, if_pos]
      simp only [Option.getD_none]
      rw [check_playlist_once_of_ne init L hinit]
      simpa [List.isEmpty_iff] using hd
    · have hL : L ≠ [] := by
        intro hc; rw [hc] at hd; exact hd rfl
      simp only [hd, if_neg]
      show (check_playlist_once L L).new_tracks = []
      rw [check_playlist_once_of_ne L L hL]
      simp [diffNew_self]

theorem second_cycle_saved (init L : List String) :
    (check_playlist_once (applyCycle init (.ok L)) L).saved = none ∨
      (applyCycle init (.ok L) = [] ∧ L = [] ∧
        (check_playlist_once (applyCycle init (.ok L)) L).saved = some []) := by
  by_cases hs : applyCycle init (.ok L) = []
  · right
    have hL : L = [] := by
      by_cases hinit : init = []
      · subst hinit; rw [applyCycle_ok, check_playlist_once_nil] at hs; simpa using hs
      · rw [applyCycle_ok, check_playlist_once_of_ne init L hinit] at hs
        by_cases hd : (diffNew init L).isEmpty = true
        · simp only [hd, if_pos, Option.getD_none] at hs
          exact absurd hs hinit
        · simp only [hd, if_neg, Option.getD_some] at hs
          exact hs
    subst hL
    rw [hs]
    exact ⟨rfl, rfl, rfl⟩
  · left
    have h2 := second_cycle_no_new init L
    rw [check_playlist_once_of_ne _ L hs] at h2 ⊢
    simp at h2
    simp [h2]

theorem logStep_fst (acc : List String × Option (List String))
    (f : Except FetchError (List String)) :
    (logStep acc f).1 = applyCycle acc.1 f := by
  cases f with
  | error e => rfl
  | ok cur =>
    simp only [logStep, applyCycle]
    cases hs : (check_playlist_once acc.1 cur).saved <;> simp

theorem logStep_inv (init : List String)
    (acc : List String × Option (List String))
    (f : Except FetchError (List String))
    (h : acc.1 = acc.2.getD init) :
    (logStep acc f).1 = (logStep acc f).2.getD init := by
  cases f with
  | error e => exact h
  | ok cur =>
    simp only [logStep]
    cases hs : (check_playlist_once acc.1 cur).saved <;> simp [h]

theorem foldl_logStep_fst (fetches : List (Except FetchError (List String))) :
    ∀ (acc : List String × Option (List String)),
      (fetches.foldl logStep acc).1 = fetches.foldl applyCycle acc.1 := by
  induction fetches with
  | nil => intro acc; rfl
  | cons f fs ih =>
    intro acc
    simp only [List.foldl_cons]
    rw [ih (logStep acc f), logStep_fst]

theorem foldl_logStep_inv (init : List String)
    (fetches : List (Except FetchError (List String))) :
    ∀ (acc : List String × Option (List String)),
      acc.1 = acc.2.getD init →
      (fetches.foldl logStep acc).1 = (fetches.foldl logStep acc).2.getD init := by
  induction fetches with
  | nil => intro acc h; exact h
  | cons f fs ih =>
    intro acc h
    simp only [List.foldl_cons]
    exact ih (logStep acc f) (logStep_inv init acc f h)

theorem runCycles_eq_lastSave (init : List String)
    (fetches : List (Except FetchError (List String))) :
    runCycles init fetches = ((runCyclesLog init fetches).2).getD init := by
  have h1 : (runCyclesLog init fetches).1 = runCycles init fetches :=
    foldl_logStep_fst fetches (init, none)
  have h2 := foldl_logStep_inv init fetches (init, none) rfl
  rw [← h1]
  exact h2

/-! Claim theorems. -/

/-- C1: for every non-empty previous snapshot and every fetched current
list, the Delta computed by a check cycle equals the sub-sequence of
`current`, in the order of `current`, consisting of exactly the titles
that do not occur in `previous`, by exact string-match membership against
the whole previous list (`diffSpec` is that sub-sequence as the spec words
it). -/
theorem claim_C1_delta_is_spec_diff (previous current : List String)
    (h : previous ≠ []) :
    (check_playlist_once previous current).new_tracks =
      diffSpec previous current := by
  rw [check_playlist_once_of_ne previous current h]
  simpa using diffNew_eq_diffSpec previous current

/-- Witness for C1 at the spec's example: previous `["A","B"]` and current
`["A","B","C","D"]` give the Delta `["C","D"]` in that order. -/
theorem claim_C1_witness :
    (["A", "B"] : List String) ≠ [] ∧
    (check_playlist_once ["A", "B"] ["A", "B", "C", "D"]).new_tracks =
      ["C", "D"] :=
  ⟨by decide,
    (claim_C1_delta_is_spec_diff ["A", "B"] ["A", "B", "C", "D"]
      (by decide)).trans (by decide)⟩

/-- C2: when the loaded previous state is empty, the check cycle persists
the fetched list wholesale as the initial snapshot, returns an empty
new-track list, and the handler attempts zero new-track notifications. -/
theorem claim_C2_bootstrap (current : List String) (deliver : String → Bool) :
    (check_playlist_once [] current).saved = some current ∧
    (check_playlist_once [] current).new_tracks = [] ∧
    (check [] (.ok current) deliver).state = current ∧
    newTrackSends (check [] (.ok current) deliver).events = 0 := by
  refine ⟨rfl, rfl, ?_, newTrackSends_of_no_new [] current deliver rfl⟩
  rw [check_ok_state]
  rfl

/-- Counterexample to C3: starting with no prior state, a first cycle
fetching `[]` followed by a cycle fetching `["A"]` leaves the snapshot
`["A"]`, which is non-empty but comes from a cycle that was neither the
cycle of the first successful fetch (cycle 0, which fetched `[]`) nor a
cycle that found a non-empty Delta (cycle 1 took the bootstrap path, so
its returned new-track list is empty); moreover that second cycle had an
empty Delta yet rewrote the snapshot. -/
theorem claim_C3_counterexample :
    ¬ c3ClaimHolds [] [.ok [], .ok ["A"]] := by decide

/-- C3 amended: once non-empty, the persisted snapshot equals exactly the
full fetched list of the most recent cycle that performed a save (the
run equals the last saved list, or the initial state when no cycle
saved); a cycle saves exactly when the loaded previous state was empty
(the bootstrap path, not only the first successful fetch) or its Delta is
non-empty; every save writes the full current list; and a cycle whose
loaded previous state is non-empty and whose Delta is empty leaves the
persisted state identical to what it was before. -/
theorem claim_C3_snapshot_invariant :
    (∀ init fetches,
      runCycles init fetches = ((runCyclesLog init fetches).2).getD init) ∧
    (∀ prev cur, (check_playlist_once prev cur).saved ≠ none ↔
      prev = [] ∨ (check_playlist_once prev cur).new_tracks ≠ []) ∧
    (∀ prev cur, (check_playlist_once prev cur).saved = none ∨
      (check_playlist_once prev cur).saved = some cur) ∧
    (∀ prev cur, prev ≠ [] → (check_playlist_once prev cur).new_tracks = [] →
      applyCycle prev (.ok cur) = prev) := by
  refine ⟨runCycles_eq_lastSave, ?_, ?_, ?_⟩
  · intro prev cur
    by_cases hp : prev = []
    · subst hp
      rw [check_playlist_once_nil]
      simp
    · rw [check_playlist_once_of_ne prev cur hp]
      by_cases hd : (diffNew prev cur).isEmpty = true
      · simp [hd, hp, List.isEmpty_iff.mp hd]
      · have hne : diffNew prev cur ≠ [] := by
          intro hc
          exact hd (by simp [hc])
        simp only [hd, if_neg]
        simp [hp, hne]
  · intro prev cur
    by_cases hp : prev = []
    · subst hp; right; rfl
    · rw [check_playlist_once_of_ne prev cur hp]
      by_cases hd : (diffNew prev cur).isEmpty = true
      · left; simp [hd]
      · right; simp [hd]
  · intro prev cur hp hnew
    rw [check_playlist_once_of_ne prev cur hp] at hnew
    simp at hnew
    rw [applyCycle_ok, check_playlist_once_of_ne prev cur hp]
    simp [hnew]

/-- Witness for C3 at a concrete no-change cycle: previous `["A"]` and
current `["A"]` give an empty Delta and an unchanged persisted state. -/
theorem claim_C3_witness :
    (["A"] : List String) ≠ [] ∧
    (check_playlist_once ["A"] ["A"]).new_tracks = [] ∧
    applyCycle ["A"] (.ok ["A"]) = ["A"] :=
  ⟨by decide, by decide,
    claim_C3_snapshot_invariant.2.2.2 ["A"] ["A"] (by decide) (by decide)⟩

/-- Counterexample to C4: with no prior state and the fetch returning `[]`
both times, the second cycle still performs a state-file write (it
rewrites the empty snapshot through the bootstrap path), contradicting
the claim that the second cycle performs no write at all. -/
theorem claim_C4_counterexample :
    fileWrites (check ((check [] (.ok []) (fun _ => true)).state) (.ok [])
      (fun _ => true)).events = 1 ∧
    (check ((check [] (.ok []) (fun _ => true)).state) (.ok [])
      (fun _ => true)).events =
      [.sentChecking, .savedFile [], .sentNoTracksFound] := by decide

/-- C4 amended: running a check cycle twice with the fetch returning the
same list `L` both times produces zero new-track notifications on the
second run and leaves the persisted snapshot equal to what the first run
left; the second run performs no state-file write, except in the single
case where the state after the first run and `L` are both empty, in which
case the bootstrap path rewrites the identical empty snapshot. -/
theorem claim_C4_idempotent (init L : List String) (deliver : String → Bool) :
    newTrackSends
      (check ((check init (.ok L) deliver).state) (.ok L) deliver).events = 0 ∧
    (check ((check init (.ok L) deliver).state) (.ok L) deliver).state =
      (check init (.ok L) deliver).state ∧
    (fileWrites
        (check ((check init (.ok L) deliver).state) (.ok L) deliver).events = 0 ∨
      ((check init (.ok L) deliver).state = [] ∧ L = [])) := by
  have hst : (check init (.ok L) deliver).state = applyCycle init (.ok L) := by
    rw [check_ok_state, applyCycle_ok]
  refine ⟨?_, ?_, ?_⟩
  · rw [hst]
    exact newTrackSends_of_no_new _ L deliver (second_cycle_no_new init L)
  · rw [hst, check_ok_state]
    rcases second_cycle_saved init L with h | ⟨h1, _h2, h3⟩
    · rw [h]; rfl
    · rw [h3, h1]; rfl
  · rcases second_cycle_saved init L with h | ⟨h1, h2, _h3⟩
    · left
      rw [hst]
      exact fileWrites_of_saved_none _ L deliver h
    · right
      rw [hst]
      exact ⟨h1, h2⟩

/-- C5: with a non-empty prior snapshot, a cycle whose fetch returns the
empty list performs no save (the persisted state stays the prior
snapshot) and attempts zero new-track notifications. -/
theorem claim_C5_empty_fetch (prev : List String) (deliver : String → Bool)
    (h : prev ≠ []) :
    (check_playlist_once prev []).saved = none ∧
    (check_playlist_once prev []).new_tracks = [] ∧
    (check prev (.ok []) deliver).state = prev ∧
    newTrackSends (check prev (.ok []) deliver).events = 0 := by
  have hc := check_playlist_once_of_ne prev [] h
  have hnew : (check_playlist_once prev []).new_tracks = [] := by
    rw [hc]
    simpa using diffNew_nil prev
  have hsaved : (check_playlist_once prev []).saved = none := by
    rw [hc]
    simp [diffNew_nil]
  refine ⟨hsaved, hnew, ?_, newTrackSends_of_no_new prev [] deliver hnew⟩
  rw [check_ok_state, hsaved]
  rfl

/-- Witness for C5 at the spec's example: prior `["A","B"]` and fetch `[]`
leave the snapshot `["A","B"]`. -/
theorem claim_C5_witness :
    (["A", "B"] : List String) ≠ [] ∧
    (check ["A", "B"] (.ok []) (fun _ => true)).state = ["A", "B"] :=
  ⟨by decide,
    (claim_C5_empty_fetch ["A", "B"] (fun _ => true) (by decide)).2.2.1⟩

/-- C6: when the fetch of a cycle raises, the handler replies only the
"checking" message and the failure report (so no new-track notification),
the persisted snapshot is untouched, and the next cycle from the
resulting state behaves identically to a cycle from the prior state. -/
theorem claim_C6_fetch_failure (prev : List String) (deliver : String → Bool) :
    (check prev (.error .fetchError) deliver).events =
      [.sentChecking, .sentErrorReport] ∧
    (check prev (.error .fetchError) deliver).state = prev ∧
    newTrackSends (check prev (.error .fetchError) deliver).events = 0 ∧
    ∀ (f : Except FetchError (List String)) (d2 : String → Bool),
      check ((check prev (.error .fetchError) deliver).state) f d2 =
        check prev f d2 :=
  ⟨rfl, rfl, rfl, fun _ _ => rfl⟩

/-- Counterexample to C7: prior `["X"]`, fetch `["X","A","B"]` (Delta
`["A","B"]`), and a delivery that fails on `"A"`: the trace shows the
send for `"A"` attempted and no send for `"B"` — the raised delivery
exception aborts the remaining sends, contradicting the claim that
notifications after a failing one are still attempted. The snapshot was
nevertheless updated to the full list, since the save precedes the
sends. -/
theorem claim_C7_counterexample :
    (check ["X"] (.ok ["X", "A", "B"]) (fun t => decide (t ≠ "A"))).events =
      [.sentChecking, .savedFile ["X", "A", "B"], .sentNewTrack "A"] ∧
    newTrackSends
      (check ["X"] (.ok ["X", "A", "B"]) (fun t => decide (t ≠ "A"))).events = 1 ∧
    (check ["X"] (.ok ["X", "A", "B"]) (fun t => decide (t ≠ "A"))).state =
      ["X", "A", "B"] := by decide

/-- C7 amended: in a cycle with a non-empty Delta, a failure while sending
notification k prevents notifications k+1 through n from being attempted
(the attempted sends are the longest successful prefix of the Delta plus
the single failing send), while the snapshot is still updated to the full
current list including all new tracks, because the save precedes the
sends. -/
theorem claim_C7_failure_aborts_rest (prev cur : List String)
    (deliver : String → Bool)
    (h : (check_playlist_once prev cur).new_tracks ≠ []) :
    (check prev (.ok cur) deliver).events =
      .sentChecking :: .savedFile cur ::
        (((check_playlist_once prev cur).new_tracks.takeWhile deliver ++
          ((check_playlist_once prev cur).new_tracks.dropWhile deliver).take 1).map
            .sentNewTrack) ∧
    (check prev (.ok cur) deliver).state = cur := by
  rw [check_ok_of_new prev cur deliver h]
  exact ⟨by rw [notifyLoop_fst], rfl⟩

/-- Witness for C7 amended at prior `["X"]`, fetch `["X","A","B"]`, and a
delivery failing on `"A"`: the snapshot still becomes the full current
list. -/
theorem claim_C7_witness :
    (check_playlist_once ["X"] ["X", "A", "B"]).new_tracks ≠ [] ∧
    (check ["X"] (.ok ["X", "A", "B"]) (fun t => decide (t ≠ "A"))).state =
      ["X", "A", "B"] :=
  ⟨by decide,
    (claim_C7_failure_aborts_rest ["X"] ["X", "A", "B"]
      (fun t => decide (t ≠ "A")) (by decide)).2⟩

/-- Counterexample to C8: prior `["A"]` and fetch `["A","B"]` with all
deliveries succeeding produce the trace `[checking, save of the full
list, notification for "B"]`: the state-file write sits at position 1,
before the new-track notification at position 2, contradicting the claim
that the snapshot is never persisted before the cycle's notifications are
attempted. -/
theorem claim_C8_counterexample :
    (check ["A"] (.ok ["A", "B"]) (fun _ => true)).events =
      [.sentChecking, .savedFile ["A", "B"], .sentNewTrack "B"] ∧
    (check ["A"] (.ok ["A", "B"]) (fun _ => true)).events.get? 1 =
      some (.savedFile ["A", "B"]) ∧
    (check ["A"] (.ok ["A", "B"]) (fun _ => true)).events.get? 2 =
      some (.sentNewTrack "B") := by decide

/-- C8 amended: in a cycle with a non-empty Delta whose deliveries all
succeed, exactly one notification per new track is sent, in Delta order,
and the save that replaces the snapshot with the current list happens
before those sends (inside `check_playlist_once`), not after them. -/
theorem claim_C8_notify_order_after_save (prev cur : List String)
    (h : (check_playlist_once prev cur).new_tracks ≠ []) :
    (check prev (.ok cur) (fun _ => true)).events =
      .sentChecking :: .savedFile cur ::
        ((check_playlist_once prev cur).new_tracks.map .sentNewTrack) ∧
    (check prev (.ok cur) (fun _ => true)).state = cur := by
  rw [check_ok_of_new prev cur _ h]
  exact ⟨by rw [notifyLoop_all_delivered], rfl⟩

/-- Witness for C8 amended at prior `["P"]` and fetch `["P","Q","R"]`:
the trace is the save followed by the notifications for `"Q"` then
`"R"`, in Delta order. -/
theorem claim_C8_witness :
    (check_playlist_once ["P"] ["P", "Q", "R"]).new_tracks ≠ [] ∧
    (check ["P"] (.ok ["P", "Q", "R"]) (fun _ => true)).events =
      [.sentChecking, .savedFile ["P", "Q", "R"],
        .sentNewTrack "Q", .sentNewTrack "R"] := by
  refine ⟨by decide, ?_⟩
  rw [(claim_C8_notify_order_after_save ["P"] ["P", "Q", "R"] (by decide)).1]
  decide

/-- Counterexample to C9: a state file whose content is the valid JSON
document `[]` — not an object — makes `load_previous_state` raise
`AttributeError` (from `data.get` on a list) instead of returning the
empty sequence, contradicting the claim that no content makes load raise. -/
theorem claim_C9_counterexample :
    load_previous_state (.content (.arr [])) = .error .attributeError := rfl

/-- C9 amended: load returns the persisted `tracks` field of a state file
written by `save_state` (and in general of any JSON object, defaulting to
the empty list), and returns the empty list when the file is absent,
unreadable, or not valid JSON; but content parsing to a non-object JSON
value raises `AttributeError` rather than degrading to "no prior
state". -/
theorem claim_C9_load_behaviour :
    (∀ tracks, load_previous_state (.content (save_state tracks)) =
      .ok (encodeTracks tracks)) ∧
    load_previous_state .absent = .ok (encodeTracks []) ∧
    load_previous_state .unreadable = .ok (encodeTracks []) ∧
    load_previous_state .malformed = .ok (encodeTracks []) ∧
    (∀ fields, load_previous_state (.content (.obj fields)) =
      .ok (dictGet fields "tracks" (.arr []))) ∧
    (∀ j : JsonVal, j.isObj = false →
      load_previous_state (.content j) = .error .attributeError) := by
  refine ⟨fun tracks => rfl, rfl, rfl, rfl, fun fields => rfl, ?_⟩
  intro j hj
  cases j <;> first | rfl | simp [JsonVal.isObj] at hj

/-- Witness for C9 amended at the non-object JSON value `null`: load
raises `AttributeError`. -/
theorem claim_C9_witness :
    JsonVal.isObj .null = false ∧
    load_previous_state (.content .null) = .error .attributeError :=
  ⟨rfl, claim_C9_load_behaviour.2.2.2.2.2 .null rfl⟩

/-- C10: every cycle whose loaded previous state is empty — which load
produces for a missing file, an unreadable file, or a previously
persisted empty list — takes the bootstrap path: it persists the fetched
current list (including persisting an empty list when the fetch returns
nothing) and returns an empty new-track list, so the handler attempts
zero new-track notifications. -/
theorem claim_C10_empty_previous_bootstraps :
    (∀ cur, (check_playlist_once [] cur).new_tracks = [] ∧
      (check_playlist_once [] cur).saved = some cur) ∧
    load_previous_state .absent = .ok (encodeTracks []) ∧
    load_previous_state .unreadable = .ok (encodeTracks []) ∧
    load_previous_state (.content (save_state [])) = .ok (encodeTracks []) ∧
    (∀ deliver : String → Bool, (check [] (.ok []) deliver).events =
      [.sentChecking, .savedFile [], .sentNoTracksFound]) ∧
    (∀ (deliver : String → Bool) (cur : List String),
      newTrackSends (check [] (.ok cur) deliver).events = 0) := by
  refine ⟨fun cur => ⟨rfl, rfl⟩, rfl, rfl, rfl, fun deliver => rfl,
    fun deliver cur => newTrackSends_of_no_new [] cur deliver rfl⟩

end SoundcloudBot
